import Mathlib

/-!
Verification of the Android native-activity bridge and event pump of the
quickstart-cpp AdMob test application
(`admob/testapp/src/android/android_main.cc` and
`admob/testapp/src/common_main.cc`).

The C++ globals are embedded as fields of explicit state records, and each
C function becomes a Lean function threading that state.  JNI object
pointers (`jobject`) are embedded as `Option Nat`, with `none` standing for
the C++ `nullptr`.  The platform looper is embedded as a queue of pending
poll sources; dispatching a command source runs the installed `OnAppCmd`
callback, exactly as `android_native_app_glue` does for this program (the
only callback it installs is `onAppCmd`).
-/

namespace QuickstartCpp

/-- A `jobject` pointer: `none` is the C++ `nullptr`. -/
abbrev Jobject := Option Nat

/-- The value of `APP_CMD_DESTROY` in the `android_native_app_glue.h` command
enumeration (sixteenth enumerator, value 15). -/
def APP_CMD_DESTROY : Nat := 15

/-- The `activity` record reachable from `struct android_app`; the program
only ever reads its `clazz` field (`g_app_state->activity->clazz`). -/
structure NativeActivityRec where
  clazz : Nat
deriving DecidableEq, Repr

/-- State of the Java log-window helper object (`class LoggingUtilsData`).
`loggingUtilsClass` is the `logging_utils_class_` member (`none` is the C++
null/`0` value it holds before `Init()` has run); `viewLog` records the text
lines that have been appended to the on-screen log view, the observable
effect of the `addLogText` static-method call. -/
structure LoggingUtilsData where
  loggingUtilsClass : Option Nat
  addLogTextId : Nat
  initLogWindowId : Nat
  viewLog : List String
deriving DecidableEq, Repr

/-- The file-scope globals of `android_main.cc` that the bridge and event
pump read and write:
`g_destroy_requested`, `g_started`, `g_restarted`, `g_initialized`,
`g_main_thread`, `g_jni_env`, `g_activity`, `g_app_state` (represented by
the `activity` record it points at), `g_logging_utils_data`, and whether
the calling worker thread currently holds `g_started_mutex`. -/
structure BridgeState where
  destroyRequested : Bool
  started : Bool
  restarted : Bool
  initialized : Bool
  mainThread : Nat
  jniEnv : Option Nat
  activity : Jobject
  appState : Option NativeActivityRec
  loggingUtils : Option LoggingUtilsData
  startedMutexLocked : Bool
deriving Repr

/-- `OnAppCmd` (android_main.cc lines 75-77):
`g_destroy_requested |= cmd == APP_CMD_DESTROY;`. -/
def OnAppCmd (s : BridgeState) (cmd : Nat) : BridgeState :=
  { s with destroyRequested := s.destroyRequested || decide (cmd = APP_CMD_DESTROY) }

/-- A pending source the looper can hand back from `ALooper_pollAll`.  For
this program a ready command source is processed by `process_cmd`, which
invokes the installed `onAppCmd` callback (`OnAppCmd`); a ready input source
is processed by `process_input`, for which this program installs no handler,
so dispatching it leaves the bridge globals unchanged. -/
inductive PollSource where
  | cmdSource (cmd : Nat)
  | inputSource
deriving DecidableEq, Repr

/-- `source->process(g_app_state, source)` for one ready poll source. -/
def dispatchSource (s : BridgeState) : PollSource → BridgeState
  | .cmdSource c => OnAppCmd s c
  | .inputSource => s

/-- The outcome of one `ProcessEvents` call: the bridge state and looper
queue afterwards, whether the off-main-thread `usleep` branch ran (and for
how many milliseconds), how many sources were dispatched, and the returned
boolean. -/
structure PollResult where
  state : BridgeState
  pending : List PollSource
  sleptMsec : Option Nat
  dispatched : Nat
  ret : Bool
deriving Repr

/-- `ProcessEvents` (android_main.cc lines 81-96).  Off the main thread
(`!pthread_equal(g_main_thread, pthread_self())`) it sleeps `msec`
milliseconds and returns `g_destroy_requested | g_restarted`.  On the main
thread it calls `ALooper_pollAll(msec, ...)`; if that yields a ready source
the source is processed, and the call returns
`g_destroy_requested | g_restarted` as of that point.  The looper is
embedded as the queue `pending`: a non-empty queue means `pollAll` returns
its head as the ready source, an empty queue means the poll times out with
no source. -/
def ProcessEvents (tid : Nat) (msec : Nat) (s : BridgeState)
    (pending : List PollSource) : PollResult :=
  if ¬ tid = s.mainThread then
    { state := s, pending := pending, sleptMsec := some msec, dispatched := 0,
      ret := s.destroyRequested || s.restarted }
  else
    match pending with
    | [] =>
        { state := s, pending := [], sleptMsec := none, dispatched := 0,
          ret := s.destroyRequested || s.restarted }
    | src :: rest =>
        let s2 := dispatchSource s src
        { state := s2, pending := rest, sleptMsec := none, dispatched := 1,
          ret := s2.destroyRequested || s2.restarted }

/-- `GetActivity` (android_main.cc lines 99-104): off the main thread it
returns the transient `g_activity` global; on the main thread it returns
`g_app_state->activity->clazz`. -/
def GetActivity (tid : Nat) (s : BridgeState) : Jobject :=
  if ¬ tid = s.mainThread then s.activity
  else s.appState.map NativeActivityRec.clazz

/-- `GetWindowContext` (android_main.cc line 107): `return GetActivity();`. -/
def GetWindowContext (tid : Nat) (s : BridgeState) : Jobject :=
  GetActivity tid s

/-- The opening assignments of `nativeInit` (android_main.cc lines 60-61):
`g_jni_env = env; g_activity = activity;` — the transient recording of the
early-init handles. -/
def nativeInitRecord (env activityObj : Nat) (b : BridgeState) : BridgeState :=
  { b with jniEnv := some env, activity := some activityObj }

/-- The session-opening assignments of `android_main` (android_main.cc lines
303-310): record the calling thread as the canonical main thread, set
`g_started`, reset `g_destroy_requested`, save the native app glue state and
install `OnAppCmd` as the command callback (the installed callback is what
`dispatchSource` runs on every command source). -/
def sessionBegin (tid : Nat) (app : NativeActivityRec) (s : BridgeState) :
    BridgeState :=
  { s with mainThread := tid, started := true, destroyRequested := false,
           appState := some app }

/-- An observable operation within one session after `sessionBegin`: the
native glue invoking the installed `onAppCmd` callback, or a call to
`ProcessEvents` from some thread. -/
inductive SessionOp where
  | appCmd (cmd : Nat)
  | processEventsOp (tid msec : Nat)
deriving DecidableEq, Repr

/-- Run a list of session operations from a given bridge state and looper
queue, collecting every boolean returned by a `ProcessEvents` call. -/
def runOps : BridgeState → List PollSource → List SessionOp →
    BridgeState × List PollSource × List Bool
  | s, _q, [] => (s, _q, [])
  | s, q, .appCmd c :: ops => runOps (OnAppCmd s c) q ops
  | s, q, .processEventsOp tid msec :: ops =>
      let r := ProcessEvents tid msec s q
      let rest := runOps r.state r.pending ops
      (rest.1, rest.2.1, r.ret :: rest.2.2)

/-- How the `while (!g_initialized)` wait loop of `android_main` was left. -/
inductive InitWaitExit where
  | destroyPath
  | initDone
deriving DecidableEq, Repr

/-- The `while (!g_initialized)` wait loop of `android_main` (android_main.cc
lines 322-339), run by thread `tid`, with `fuel` bounding how many
iterations are examined (`none` means the bound was exhausted with the loop
still spinning).  Each iteration re-tests `g_initialized`; when it is still
clear the loop calls `ProcessEvents(10)` and breaks out of the loop if that
returns `true` (`destroyPath`); otherwise it performs the 10 ms
`pthread_cond_timedwait` — during which, in this model of the scenario where
`nativeInit` never runs, no other thread mutates the state — and loops. -/
def waitForNativeInit (tid : Nat) :
    Nat → BridgeState → List PollSource →
    Option (InitWaitExit × BridgeState × List PollSource)
  | 0, _, _ => none
  | fuel + 1, s, q =>
    if s.initialized then some (.initDone, s, q)
    else
      let r := ProcessEvents tid 10 s q
      if r.ret then some (.destroyPath, r.state, r.pending)
      else waitForNativeInit tid fuel r.state r.pending

/-- The externally visible actions of the `android_main` epilogue. -/
inductive TeardownAct where
  | processEventsCall
  | deleteLoggingDisplay
  | finishActivity
  | detachCurrentThread
  | unlockStartedMutex
deriving DecidableEq, Repr

/-- The epilogue of `android_main` after `common_main` returns
(android_main.cc lines 363-379): call `ProcessEvents(10)` once to drain
remaining events, delete the logging display and null `g_logging_utils_data`,
clear `g_initialized`, call `ANativeActivity_finish` only when `g_restarted`
is not set, detach the thread from the Java VM, clear `g_started` and
`g_restarted`, and unlock `g_started_mutex`.  Returns the final bridge
state, the remaining looper queue, and the trace of actions in program
order. -/
def androidMainTeardown (tid : Nat) (s : BridgeState) (q : List PollSource) :
    BridgeState × List PollSource × List TeardownAct :=
  let r := ProcessEvents tid 10 s q
  let s1 := { r.state with loggingUtils := none }
  let s2 := { s1 with initialized := false }
  let finishActs : List TeardownAct :=
    if s2.restarted then [] else [.finishActivity]
  let s3 := { s2 with started := false, restarted := false,
                      startedMutexLocked := false }
  (s3, r.pending,
    .processEventsCall :: .deleteLoggingDisplay ::
      (finishActs ++ [.detachCurrentThread, .unlockStartedMutex]))

/-- Sample birthday values used in making the request (common_main.cc lines
77-79). -/
def kBirthdayDay : Nat := 10

/-- The sample birthday month. -/
def kBirthdayMonth : Nat := 11

/-- The sample birthday year. -/
def kBirthdayYear : Nat := 1976

/-- Sample keywords to use in making the request (common_main.cc line 70). -/
def kKeywords : List String := ["AdMob", "C++", "Fun"]

/-- Sample test device IDs to use in making the request (common_main.cc
lines 73-74). -/
def kTestDeviceIDs : List String :=
  ["2077ef9a63d2b398840261c8221a0c9b", "098fe087d987c9a878965454a65654d7"]

/-- The static request extras (common_main.cc lines 137-138). -/
def kRequestExtras : List (String × String) :=
  [("the_name_of_an_extra", "the_value_for_that_extra")]

/-- `firebase::admob::kGenderUnknown` (first enumerator of `Gender`). -/
def kGenderUnknown : Nat := 0

/-- `firebase::admob::kChildDirectedTreatmentStateTagged` (second
enumerator of `ChildDirectedTreatmentState`). -/
def kChildDirectedTreatmentStateTagged : Nat := 1

/-- The targeting fields of `firebase::admob::AdRequest` that
`InitializeFirebase` fills in (common_main.cc lines 117-152). -/
structure AdRequest where
  gender : Nat
  taggedForChildDirectedTreatment : Nat
  birthdayDay : Nat
  birthdayMonth : Nat
  birthdayYear : Nat
  keywordCount : Nat
  keywords : List String
  extrasCount : Nat
  extras : List (String × String)
  testDeviceIdCount : Nat
  testDeviceIds : List String
deriving DecidableEq, Repr

/-- The file-scope ad-session globals of common_main.cc — `g_app`,
`g_banner` (embedded as optional handles) and `g_request` — together with a
ghost counter of how many times the body of `InitializeFirebase` past its
`if (g_app) return;` guard has executed. -/
structure AdSessionState where
  app : Option Nat
  banner : Option Nat
  request : AdRequest
  firebaseInitRuns : Nat
deriving DecidableEq, Repr

/-- `InitializeFirebase` (common_main.cc lines 100-177).  The guard
`if (g_app) return;` makes a repeated call return immediately.  Past the
guard the body creates the `firebase::App` (embedded as handle 1),
initializes the AdMob library, fills in the targeting fields of
`g_request`, and creates, shows and loads the banner view (embedded as
handle 1); the SDK calls themselves are external to this repository and are
represented by their effect on the globals, and the ghost counter
`firebaseInitRuns` counts executions of the body past the guard. -/
def InitializeFirebase (s : AdSessionState) : AdSessionState :=
  if s.app.isSome then s
  else
    { app := some 1,
      banner := some 1,
      request :=
        { gender := kGenderUnknown,
          taggedForChildDirectedTreatment := kChildDirectedTreatmentStateTagged,
          birthdayDay := kBirthdayDay, birthdayMonth := kBirthdayMonth,
          birthdayYear := kBirthdayYear,
          keywordCount := kKeywords.length, keywords := kKeywords,
          extrasCount := kRequestExtras.length, extras := kRequestExtras,
          testDeviceIdCount := kTestDeviceIDs.length,
          testDeviceIds := kTestDeviceIDs },
      firebaseInitRuns := s.firebaseInitRuns + 1 }

/-- The combined state touched by `nativeInit`: the bridge globals, the ad
session globals, and a ghost count of `pthread_cond_signal(&g_init_cond)`
calls (each signal wakes any thread waiting on the init condition). -/
structure EarlyInitState where
  bridge : BridgeState
  session : AdSessionState
  initSignals : Nat
deriving Repr

/-- `nativeInit`
(`Java_com_google_firebase_example_TestappNativeActivity_nativeInit`,
android_main.cc lines 54-72): record the transient environment and activity
handles, run `InitializeFirebase`, set `g_initialized` under `g_init_mutex`,
clear the transient handles again, and signal `g_init_cond`. -/
def nativeInit (env activityObj : Nat) (s : EarlyInitState) : EarlyInitState :=
  let b1 := nativeInitRecord env activityObj s.bridge
  let ses1 := InitializeFirebase s.session
  let b2 := { b1 with initialized := true }
  let b3 := { b2 with jniEnv := none, activity := none }
  { bridge := b3, session := ses1, initSignals := s.initSignals + 1 }

/-- A sequence of `nativeInit` invocations with their `(env, activity)`
arguments, applied in order. -/
def nativeInitCalls : List (Nat × Nat) → EarlyInitState → EarlyInitState
  | [], s => s
  | (e, a) :: rest, s => nativeInitCalls rest (nativeInit e a s)

/-- `LoggingUtilsData::AppendText` (android_main.cc lines 197-205): when
`logging_utils_class_` is still null/0 the call returns without touching
the view; otherwise the text is appended to the on-screen log view through
the `addLogText` static method. -/
def LoggingUtilsData.appendText (d : LoggingUtilsData) (text : String) :
    LoggingUtilsData :=
  if d.loggingUtilsClass = none then d
  else { d with viewLog := d.viewLog ++ [text] }

/-- The JNI environment as seen through `ExceptionCheck`,
`ExceptionOccurred` and `ExceptionClear`: at most one pending managed
runtime exception, embedded by its `toString` text. -/
structure JniEnvState where
  pendingException : Option String
deriving DecidableEq, Repr

/-- The outcome of `CheckJNIException`: the environment afterwards, the
lines printed to the adb console, and whether `assert(false)` aborted. -/
structure JniCheckResult where
  env : JniEnvState
  consoleLog : List String
  abortedByAssert : Bool
deriving DecidableEq, Repr

/-- `CheckJNIException` (android_main.cc lines 216-246): when an exception
is pending it is fetched and cleared, its text is printed to the console
between separator lines, and `assert(false)` aborts. -/
def CheckJNIException (env : JniEnvState) : JniCheckResult :=
  match env.pendingException with
  | none => { env := env, consoleLog := [], abortedByAssert := false }
  | some exn =>
      { env := { env with pendingException := none },
        consoleLog :=
          ["-------------------JNI exception:", exn, "-------------------"],
        abortedByAssert := true }

/-- The line formatting of `LogMessage` (android_main.cc lines 250-259):
`vsnprintf` into a 100-byte line buffer, then append a line break.  When
the formatted message does not fit, `vsnprintf` keeps only the first 99
characters plus its terminator, so the appended line break lands beyond the
terminator. -/
def logLine (msg : String) : String :=
  if msg.length < 100 then msg ++ "\n" else msg.take 99

/-- The outcome of one `LogMessage` call. -/
structure LogMessageResult where
  loggingUtils : Option LoggingUtilsData
  env : JniEnvState
  consoleLog : List String
  abortedByAssert : Bool
deriving DecidableEq, Repr

/-- `LogMessage` (android_main.cc lines 249-273): always print the line to
the adb console; then, only on the canonical main thread and only when
`g_logging_utils_data` exists, mirror the line to the on-screen view via
`AppendText` and run `CheckJNIException` after that call into the managed
runtime. -/
def LogMessage (tid mainThread : Nat) (env : JniEnvState)
    (lu : Option LoggingUtilsData) (msg : String) : LogMessageResult :=
  if tid = mainThread then
    match lu with
    | some d =>
        let d2 := d.appendText (logLine msg)
        let chk := CheckJNIException env
        { loggingUtils := some d2, env := chk.env,
          consoleLog := logLine msg :: chk.consoleLog,
          abortedByAssert := chk.abortedByAssert }
    | none =>
        { loggingUtils := none, env := env, consoleLog := [logLine msg],
          abortedByAssert := false }
  else
    { loggingUtils := lu, env := env, consoleLog := [logLine msg],
      abortedByAssert := false }

/-- `firebase::kFutureStatusPending` (second enumerator of
`FutureStatus`). -/
def kFutureStatusPending : Nat := 1

/-- `firebase::admob::kAdMobErrorNone` (first enumerator of `AdMobError`,
the success code). -/
def kAdMobErrorNone : Nat := 0

/-- The observable face of a `firebase::FutureBase` during one wait:
`statusAt n` is what `Status()` reports at the n-th status query of the
wait loop, `error` is `Error()`, and `errorMessage` is `ErrorMessage()`
(the error data is fixed once the future has resolved). -/
structure FutureBase where
  statusAt : Nat → Nat
  error : Nat
  errorMessage : String

/-- The log line `WaitForFutureCompletion` produces for a failed action
(common_main.cc lines 94-95). -/
def futureErrorLog (f : FutureBase) : String :=
  "Action failed with error code " ++ toString f.error ++
    " and message \"" ++ f.errorMessage ++ "\"."

/-- The `while (!ProcessEvents(1000))` loop of `WaitForFutureCompletion`
(common_main.cc lines 87-91): each iteration calls `ProcessEvents(1000)`
and leaves the loop when it returns `true`; otherwise the body breaks out
when `future.Status()` is no longer pending.  `polls` counts the status
queries made so far and `fuel` bounds the iterations examined (`none`
means the bound was exhausted with the loop still spinning). -/
def waitForFutureLoop (tid : Nat) (fut : FutureBase) :
    Nat → Nat → BridgeState → List PollSource →
    Option (BridgeState × List PollSource)
  | 0, _, _, _ => none
  | fuel + 1, polls, s, q =>
    let r := ProcessEvents tid 1000 s q
    if r.ret then some (r.state, r.pending)
    else if ¬ fut.statusAt polls = kFutureStatusPending then
      some (r.state, r.pending)
    else waitForFutureLoop tid fut fuel (polls + 1) r.state r.pending

/-- `WaitForFutureCompletion` (common_main.cc lines 86-97): loop calling
`ProcessEvents(1000)` until it reports termination or the future is no
longer pending; afterwards, when `future.Error()` is not the success code,
log the error code and message; then return normally.  The result carries
the bridge state, looper queue, and the list of error-log lines emitted. -/
def WaitForFutureCompletion (tid : Nat) (fut : FutureBase) (fuel : Nat)
    (s : BridgeState) (q : List PollSource) :
    Option (BridgeState × List PollSource × List String) :=
  match waitForFutureLoop tid fut fuel 0 s q with
  | none => none
  | some (s2, q2) =>
      some (s2, q2,
        if ¬ fut.error = kAdMobErrorNone then [futureErrorLog fut] else [])

/-- Program points of one `android_main` invocation relevant to restart
coordination (android_main.cc lines 293-305 and 377-379).  A thread at
`running` is inside the session body with `g_started` set (lines 306-376),
the region in which a previous instance counts as still running — the
condition the code itself tests through `g_started`. -/
inductive WorkerPC where
  | entry
  | waitLock
  | waitUnlock
  | acquire
  | locked
  | running
  | cleanup
  | exited
deriving DecidableEq, Repr

/-- The restart-coordination state shared by two overlapping `android_main`
invocations: the `g_started` and `g_restarted` flags, which thread (if any)
holds `g_started_mutex`, and each thread's program point.  Thread `false`
is the previous worker instance; thread `true` is the new invocation. -/
structure RestartSys where
  started : Bool
  restarted : Bool
  holder : Option Bool
  pc : Bool → WorkerPC

/-- Update one thread's program point. -/
def RestartSys.setPC (s : RestartSys) (t : Bool) (p : WorkerPC) :
    Bool → WorkerPC :=
  fun u => if u = t then p else s.pc u

/-- One small step of thread `t` through the restart coordination of
`android_main`:
* `entryStarted` — line 293 reads `g_started` true, line 294 sets
  `g_restarted`, and the thread moves to the lock of line 296;
* `entryFresh` — line 293 reads `g_started` false, and line 299 assigns
  `PTHREAD_MUTEX_INITIALIZER` over `g_started_mutex`, forcibly clearing
  the lock word whoever held it;
* `waitLockAcq` / `waitUnlockRel` — the lock/unlock pair of lines 296-297;
  the lock step is enabled only while no thread holds the mutex;
* `acquireLock` — the lock of line 301, enabled only while no thread holds
  the mutex;
* `setStarted` — line 305 sets `g_started` inside the critical section;
* `finishBody` — lines 377-378 clear `g_started` and `g_restarted` at the
  end of the session body;
* `releaseExit` — line 379 unlocks the mutex and the invocation returns. -/
inductive WorkerStep (t : Bool) (s : RestartSys) : RestartSys → Prop where
  | entryStarted :
      s.pc t = .entry → s.started = true →
      WorkerStep t s { s with restarted := true, pc := s.setPC t .waitLock }
  | entryFresh :
      s.pc t = .entry → s.started = false →
      WorkerStep t s { s with holder := none, pc := s.setPC t .acquire }
  | waitLockAcq :
      s.pc t = .waitLock → s.holder = none →
      WorkerStep t s { s with holder := some t, pc := s.setPC t .waitUnlock }
  | waitUnlockRel :
      s.pc t = .waitUnlock →
      WorkerStep t s { s with holder := none, pc := s.setPC t .acquire }
  | acquireLock :
      s.pc t = .acquire → s.holder = none →
      WorkerStep t s { s with holder := some t, pc := s.setPC t .locked }
  | setStarted :
      s.pc t = .locked →
      WorkerStep t s { s with started := true, pc := s.setPC t .running }
  | finishBody :
      s.pc t = .running →
      WorkerStep t s
        { s with started := false, restarted := false,
                 pc := s.setPC t .cleanup }
  | releaseExit :
      s.pc t = .cleanup →
      WorkerStep t s { s with holder := none, pc := s.setPC t .exited }

/-- A step of either thread. -/
def SysStep (s s2 : RestartSys) : Prop :=
  ∃ t, WorkerStep t s s2

/-- The inductive invariant for a system started with the previous instance
(thread `false`) inside the session body and the new invocation (thread
`true`) at entry: the previous instance only moves forward through
`running`, `cleanup`, `exited`; and while it is at `running` it holds the
mutex, `g_started` is set, the new invocation has not passed the lock of
line 296, and if the new invocation has taken the restart branch the
restart flag is set. -/
def RestartInv (s : RestartSys) : Prop :=
  (s.pc false = .running ∨ s.pc false = .cleanup ∨ s.pc false = .exited) ∧
  (s.pc false = .running →
    s.holder = some false ∧ s.started = true ∧
    (s.pc true = .entry ∨ s.pc true = .waitLock) ∧
    (s.pc true = .waitLock → s.restarted = true))

/-- The concrete initial configuration for the restart scenario: the
previous instance mid-session, the new invocation at entry, the mutex held
by the previous instance, `g_started` set, `g_restarted` clear. -/
def restart0 : RestartSys :=
  { started := true, restarted := false, holder := some false,
    pc := fun t => if t then WorkerPC.entry else WorkerPC.running }

/-- A sample bridge state used to instantiate hypothesis-bearing theorems:
main thread 1, restarted flag set, everything else cleared. -/
def bridge0 : BridgeState :=
  { destroyRequested := false, started := true, restarted := true,
    initialized := false, mainThread := 1, jniEnv := none,
    activity := none, appState := none, loggingUtils := none,
    startedMutexLocked := true }

/-- The default-constructed `g_request` global: all fields zero/empty. -/
def request0 : AdRequest :=
  { gender := 0, taggedForChildDirectedTreatment := 0, birthdayDay := 0,
    birthdayMonth := 0, birthdayYear := 0, keywordCount := 0, keywords := [],
    extrasCount := 0, extras := [], testDeviceIdCount := 0,
    testDeviceIds := [] }

/-- The process-start early-init state: no app, no banner, default request,
nothing signalled. -/
def early0 : EarlyInitState :=
  { bridge := bridge0,
    session :=
      { app := none, banner := none, request := request0,
        firebaseInitRuns := 0 },
    initSignals := 0 }

end QuickstartCpp

namespace QuickstartCpp

/-- Dispatching one poll source never touches `g_restarted`. -/
theorem dispatchSource_restarted (s : BridgeState) (src : PollSource) :
    (dispatchSource s src).restarted = s.restarted := by
  cases src <;> rfl

/-- Dispatching one poll source never touches `g_initialized`. -/
theorem dispatchSource_initialized (s : BridgeState) (src : PollSource) :
    (dispatchSource s src).initialized = s.initialized := by
  cases src <;> rfl

/-- Dispatching one poll source never touches `g_main_thread`. -/
theorem dispatchSource_mainThread (s : BridgeState) (src : PollSource) :
    (dispatchSource s src).mainThread = s.mainThread := by
  cases src <;> rfl

/-- Dispatching one poll source can only raise `g_destroy_requested`: it is
the OR of the old flag with the destroy-command test. -/
theorem dispatchSource_destroyRequested (s : BridgeState) (src : PollSource) :
    (dispatchSource s src).destroyRequested =
      (s.destroyRequested ||
        match src with
        | .cmdSource c => decide (c = APP_CMD_DESTROY)
        | .inputSource => false) := by
  cases src with
  | cmdSource c => rfl
  | inputSource => simp [dispatchSource]

/-- A `ProcessEvents` call never touches `g_restarted`. -/
theorem processEvents_restarted (tid msec : Nat) (s : BridgeState)
    (q : List PollSource) :
    (ProcessEvents tid msec s q).state.restarted = s.restarted := by
  unfold ProcessEvents
  by_cases h : ¬ tid = s.mainThread
  · simp [h]
  · cases q with
    | nil => simp [h]
    | cons src rest => simp [h, dispatchSource_restarted]

/-- Once `g_destroy_requested` holds, a `ProcessEvents` call keeps it set
and returns `true`. -/
theorem processEvents_destroy_mono (tid msec : Nat) (s : BridgeState)
    (q : List PollSource) (h : s.destroyRequested = true) :
    (ProcessEvents tid msec s q).state.destroyRequested = true ∧
    (ProcessEvents tid msec s q).ret = true := by
  unfold ProcessEvents
  by_cases hm : ¬ tid = s.mainThread
  · simp [hm, h]
  · cases q with
    | nil => simp [hm, h]
    | cons src rest =>
        have hd : (dispatchSource s src).destroyRequested = true := by
          rw [dispatchSource_destroyRequested, h, Bool.true_or]
        simp [hm, hd]

/-- Claim C2: a `ProcessEvents msec` call from a thread other than the
canonical main thread dispatches no platform event source (the pending
queue and bridge state are untouched), sleeps for the given timeout, and
returns `true` exactly when the destroy-requested flag or the restarted
flag is set. -/
theorem processEvents_off_main_thread (tid msec : Nat) (s : BridgeState)
    (pending : List PollSource) (h : ¬ tid = s.mainThread) :
    (ProcessEvents tid msec s pending).dispatched = 0 ∧
    (ProcessEvents tid msec s pending).pending = pending ∧
    (ProcessEvents tid msec s pending).state = s ∧
    (ProcessEvents tid msec s pending).sleptMsec = some msec ∧
    ((ProcessEvents tid msec s pending).ret = true ↔
      s.destroyRequested = true ∨ s.restarted = true) := by
  simp [ProcessEvents, h, Bool.or_eq_true]

/-- Concrete instantiation of `processEvents_off_main_thread`: thread 7 is
not the main thread (thread 1) of the sample state. -/
theorem processEvents_off_main_thread_witness :
    ¬ (7 : Nat) = bridge0.mainThread ∧
    ((ProcessEvents 7 1000 bridge0 []).dispatched = 0 ∧
      (ProcessEvents 7 1000 bridge0 []).pending = [] ∧
      (ProcessEvents 7 1000 bridge0 []).state = bridge0 ∧
      (ProcessEvents 7 1000 bridge0 []).sleptMsec = some 1000 ∧
      ((ProcessEvents 7 1000 bridge0 []).ret = true ↔
        bridge0.destroyRequested = true ∨ bridge0.restarted = true)) :=
  ⟨by decide, processEvents_off_main_thread 7 1000 bridge0 [] (by decide)⟩

/-- Claim C3: a `ProcessEvents msec` call from the canonical main thread does
not sleep (it polls the looper, timeout `msec`), dispatches exactly one ready
source when one is pending and none otherwise, and returns `true` exactly
when the destroy-requested flag or the restarted flag is set at the moment
of return (that is, after the dispatch). -/
theorem processEvents_on_main_thread (tid msec : Nat) (s : BridgeState)
    (pending : List PollSource) (h : tid = s.mainThread) :
    (ProcessEvents tid msec s pending).sleptMsec = none ∧
    (pending = [] →
      (ProcessEvents tid msec s pending).dispatched = 0 ∧
      (ProcessEvents tid msec s pending).state = s) ∧
    (∀ src rest, pending = src :: rest →
      (ProcessEvents tid msec s pending).dispatched = 1 ∧
      (ProcessEvents tid msec s pending).state = dispatchSource s src ∧
      (ProcessEvents tid msec s pending).pending = rest) ∧
    ((ProcessEvents tid msec s pending).ret = true ↔
      (ProcessEvents tid msec s pending).state.destroyRequested = true ∨
      (ProcessEvents tid msec s pending).state.restarted = true) := by
  subst h
  cases pending with
  | nil => simp [ProcessEvents, Bool.or_eq_true]
  | cons src rest => simp [ProcessEvents, Bool.or_eq_true]

/-- Concrete instantiation of `processEvents_on_main_thread` on the sample
state, from its main thread, with one pending destroy-command source. -/
theorem processEvents_on_main_thread_witness :
    (1 : Nat) = bridge0.mainThread ∧
    ((ProcessEvents 1 10 bridge0 [.cmdSource APP_CMD_DESTROY]).sleptMsec = none ∧
      ([PollSource.cmdSource APP_CMD_DESTROY] = ([] : List PollSource) →
        (ProcessEvents 1 10 bridge0 [.cmdSource APP_CMD_DESTROY]).dispatched = 0 ∧
        (ProcessEvents 1 10 bridge0 [.cmdSource APP_CMD_DESTROY]).state = bridge0) ∧
      (∀ src rest, [PollSource.cmdSource APP_CMD_DESTROY] = src :: rest →
        (ProcessEvents 1 10 bridge0 [.cmdSource APP_CMD_DESTROY]).dispatched = 1 ∧
        (ProcessEvents 1 10 bridge0 [.cmdSource APP_CMD_DESTROY]).state =
          dispatchSource bridge0 src ∧
        (ProcessEvents 1 10 bridge0 [.cmdSource APP_CMD_DESTROY]).pending = rest) ∧
      ((ProcessEvents 1 10 bridge0 [.cmdSource APP_CMD_DESTROY]).ret = true ↔
        (ProcessEvents 1 10 bridge0
            [.cmdSource APP_CMD_DESTROY]).state.destroyRequested = true ∨
        (ProcessEvents 1 10 bridge0
            [.cmdSource APP_CMD_DESTROY]).state.restarted = true)) :=
  ⟨rfl, processEvents_on_main_thread 1 10 bridge0 [.cmdSource APP_CMD_DESTROY] rfl⟩

/-- Claim C8: `GetActivity` called off the canonical main thread returns the
transient `g_activity` handle, which is exactly the handle recorded by the
opening assignments of `nativeInit` during early init; called on the main
thread it returns the `clazz` handle attached to the current application
state (`g_app_state->activity->clazz`); and `GetWindowContext` agrees with
`GetActivity` everywhere. -/
theorem getActivity_thread_cases (tid env act : Nat) (s : BridgeState)
    (a : NativeActivityRec) (h : s.appState = some a) :
    (¬ tid = s.mainThread →
      GetActivity tid s = s.activity ∧
      GetActivity tid (nativeInitRecord env act s) = some act) ∧
    (tid = s.mainThread → GetActivity tid s = some a.clazz) ∧
    GetWindowContext tid s = GetActivity tid s := by
  refine ⟨fun hoff => ⟨?_, ?_⟩, fun hon => ?_, rfl⟩
  · simp [GetActivity, hoff]
  · simp [GetActivity, nativeInitRecord, hoff]
  · simp [GetActivity, hon, h]

/-- Concrete instantiation of `getActivity_thread_cases`: the sample state
extended with an application-state record whose activity `clazz` is 42,
queried with transient handles recorded for activity object 9. -/
theorem getActivity_thread_cases_witness :
    ({ bridge0 with appState := some ⟨42⟩ } : BridgeState).appState = some ⟨42⟩ ∧
    ((¬ (7 : Nat) = ({ bridge0 with appState := some ⟨42⟩ } : BridgeState).mainThread →
       GetActivity 7 { bridge0 with appState := some ⟨42⟩ } =
         ({ bridge0 with appState := some ⟨42⟩ } : BridgeState).activity ∧
       GetActivity 7 (nativeInitRecord 5 9 { bridge0 with appState := some ⟨42⟩ }) =
         some 9) ∧
     ((7 : Nat) = ({ bridge0 with appState := some ⟨42⟩ } : BridgeState).mainThread →
       GetActivity 7 { bridge0 with appState := some ⟨42⟩ } =
         some (NativeActivityRec.clazz ⟨42⟩)) ∧
     GetWindowContext 7 { bridge0 with appState := some ⟨42⟩ } =
       GetActivity 7 { bridge0 with appState := some ⟨42⟩ }) :=
  ⟨rfl, getActivity_thread_cases 7 5 9 { bridge0 with appState := some ⟨42⟩ } ⟨42⟩ rfl⟩

/-- The flag stays set and every collected `ProcessEvents` return value is
`true` over any run of session operations starting with
`g_destroy_requested` set. -/
theorem runOps_destroy_mono (ops : List SessionOp) (s : BridgeState)
    (q : List PollSource) (h : s.destroyRequested = true) :
    (runOps s q ops).1.destroyRequested = true ∧
    ∀ b ∈ (runOps s q ops).2.2, b = true := by
  induction ops generalizing s q with
  | nil => exact ⟨h, by simp [runOps]⟩
  | cons op ops ih =>
    cases op with
    | appCmd c =>
        have h2 : (OnAppCmd s c).destroyRequested = true := by
          simp [OnAppCmd, h]
        exact ih (OnAppCmd s c) q h2
    | processEventsOp tid msec =>
        have h2 := processEvents_destroy_mono tid msec s q h
        have ih2 := ih (ProcessEvents tid msec s q).state
          (ProcessEvents tid msec s q).pending h2.1
        refine ⟨ih2.1, ?_⟩
        intro b hb
        simp only [runOps, List.mem_cons] at hb
        cases hb with
        | inl hb => rw [hb, h2.2]
        | inr hb => exact ih2.2 b hb

/-- Claim C10: within one session the destroy-requested flag is monotone.
`sessionBegin` (the `android_main` prologue) resets it to `false`; the
command-observer callback `OnAppCmd` only ORs in the destroy-command test
and never assigns `false`; and from any state with the flag set, every run
of session operations keeps it set and every `ProcessEvents` call in that
run returns `true`. -/
theorem destroy_flag_monotone (tid0 : Nat) (app : NativeActivityRec)
    (s0 s : BridgeState) (c : Nat) (q : List PollSource)
    (ops : List SessionOp) (h : s.destroyRequested = true) :
    (sessionBegin tid0 app s0).destroyRequested = false ∧
    (OnAppCmd s0 c).destroyRequested =
      (s0.destroyRequested || decide (c = APP_CMD_DESTROY)) ∧
    (runOps s q ops).1.destroyRequested = true ∧
    ∀ b ∈ (runOps s q ops).2.2, b = true := by
  refine ⟨rfl, rfl, ?_, ?_⟩
  · exact (runOps_destroy_mono ops s q h).1
  · exact (runOps_destroy_mono ops s q h).2

/-- Concrete instantiation of `destroy_flag_monotone`: a state with the flag
set, one further command and two `ProcessEvents` calls. -/
theorem destroy_flag_monotone_witness :
    ({ bridge0 with destroyRequested := true } : BridgeState).destroyRequested
        = true ∧
    ((sessionBegin 1 ⟨42⟩ bridge0).destroyRequested = false ∧
      (OnAppCmd bridge0 3).destroyRequested =
        (bridge0.destroyRequested || decide ((3 : Nat) = APP_CMD_DESTROY)) ∧
      (runOps { bridge0 with destroyRequested := true } [.inputSource]
          [.appCmd 3, .processEventsOp 1 10, .processEventsOp 7 10]).1.destroyRequested
        = true ∧
      ∀ b ∈ (runOps { bridge0 with destroyRequested := true } [.inputSource]
          [.appCmd 3, .processEventsOp 1 10, .processEventsOp 7 10]).2.2,
        b = true) :=
  ⟨rfl, destroy_flag_monotone 1 ⟨42⟩ bridge0
    { bridge0 with destroyRequested := true } 3 [.inputSource]
    [.appCmd 3, .processEventsOp 1 10, .processEventsOp 7 10] rfl⟩

/-- Claim C6: if `nativeInit` is never called, so `g_initialized` stays
false, but the platform has queued a destroy command for the looper, the
wait loop of `android_main` terminates: within `q.length + 1` iterations
some `ProcessEvents(10)` call returns `true` through the destroy-requested
flag set by the `OnAppCmd` command observer, and the loop exits through
that break rather than waiting forever on the condition variable. -/
theorem wait_loop_exits_on_destroy (tid : Nat) (s : BridgeState)
    (q : List PollSource) (hmain : tid = s.mainThread)
    (hinit : s.initialized = false) (hd : s.destroyRequested = false)
    (hr : s.restarted = false)
    (hmem : PollSource.cmdSource APP_CMD_DESTROY ∈ q) :
    ∃ s2 q2,
      waitForNativeInit tid (q.length + 1) s q =
        some (.destroyPath, s2, q2) ∧ s2.destroyRequested = true := by
  induction q generalizing s with
  | nil => cases hmem
  | cons src rest ih =>
    have hpe : ProcessEvents tid 10 s (src :: rest) =
        { state := dispatchSource s src, pending := rest, sleptMsec := none,
          dispatched := 1,
          ret := (dispatchSource s src).destroyRequested ||
                 (dispatchSource s src).restarted } := by
      unfold ProcessEvents
      rw [if_neg (by simp [hmain])]
    unfold waitForNativeInit
    rw [hinit]
    simp only [Bool.false_eq_true, if_false, hpe]
    by_cases hds : src = PollSource.cmdSource APP_CMD_DESTROY
    · subst hds
      have hflag :
          (dispatchSource s (.cmdSource APP_CMD_DESTROY)).destroyRequested
            = true := by
        rw [dispatchSource_destroyRequested, hd]
        simp
      simp only [hflag, Bool.true_or, if_true]
      exact ⟨_, _, rfl, hflag⟩
    · have hflag : (dispatchSource s src).destroyRequested = false := by
        rw [dispatchSource_destroyRequested, hd]
        cases src with
        | cmdSource c =>
            have hc : ¬ c = APP_CMD_DESTROY := fun hc => hds (by rw [hc])
            simp [hc]
        | inputSource => simp
      have hrr : (dispatchSource s src).restarted = false := by
        rw [dispatchSource_restarted, hr]
      simp only [hflag, hrr, Bool.or_self, if_false, List.length_cons]
      apply ih
      · rw [dispatchSource_mainThread]
        exact hmain
      · rw [dispatchSource_initialized]
        exact hinit
      · exact hflag
      · exact hrr
      · rcases List.mem_cons.mp hmem with h | h
        · exact absurd h.symm hds
        · exact h

/-- Claim C5: when `common_main` returns, the `android_main` epilogue always
runs in full: remaining events are drained by exactly one `ProcessEvents`
call, the logging resources are torn down (`g_logging_utils_data` is null
afterwards), the activity is finished exactly when the restarted flag is
not set, the thread detaches from the managed runtime, and in the final
state the started flag is cleared, the restarted flag is cleared and the
started mutex is released. -/
theorem teardown_runs_fully (tid : Nat) (s : BridgeState)
    (q : List PollSource) :
    ((androidMainTeardown tid s q).2.2).count TeardownAct.processEventsCall
        = 1 ∧
    (androidMainTeardown tid s q).1.loggingUtils = none ∧
    (TeardownAct.finishActivity ∈ (androidMainTeardown tid s q).2.2 ↔
      s.restarted = false) ∧
    TeardownAct.detachCurrentThread ∈ (androidMainTeardown tid s q).2.2 ∧
    TeardownAct.unlockStartedMutex ∈ (androidMainTeardown tid s q).2.2 ∧
    (androidMainTeardown tid s q).1.started = false ∧
    (androidMainTeardown tid s q).1.restarted = false ∧
    (androidMainTeardown tid s q).1.startedMutexLocked = false := by
  unfold androidMainTeardown
  rcases hr : s.restarted with _ | _
  · simp [processEvents_restarted, hr, List.count_cons]
  · simp [processEvents_restarted, hr, List.count_cons]

/-- Concrete instantiation of `wait_loop_exits_on_destroy`: main thread 1,
uninitialized non-restarted state, with an input event followed by the
destroy command pending. -/
theorem wait_loop_exits_on_destroy_witness :
    ((1 : Nat) = ({ bridge0 with restarted := false } : BridgeState).mainThread ∧
      ({ bridge0 with restarted := false } : BridgeState).initialized = false ∧
      ({ bridge0 with restarted := false } : BridgeState).destroyRequested = false ∧
      ({ bridge0 with restarted := false } : BridgeState).restarted = false ∧
      PollSource.cmdSource APP_CMD_DESTROY ∈
        [PollSource.inputSource, PollSource.cmdSource APP_CMD_DESTROY]) ∧
    ∃ s2 q2,
      waitForNativeInit 1
          ([PollSource.inputSource, PollSource.cmdSource APP_CMD_DESTROY].length + 1)
          { bridge0 with restarted := false }
          [PollSource.inputSource, PollSource.cmdSource APP_CMD_DESTROY] =
        some (.destroyPath, s2, q2) ∧ s2.destroyRequested = true :=
  ⟨⟨rfl, rfl, rfl, rfl, by decide⟩,
    wait_loop_exits_on_destroy 1 { bridge0 with restarted := false }
      [PollSource.inputSource, PollSource.cmdSource APP_CMD_DESTROY]
      rfl rfl rfl rfl (by decide)⟩

/-- After `InitializeFirebase` the application handle always exists. -/
theorem initializeFirebase_app_isSome (s : AdSessionState) :
    (InitializeFirebase s).app.isSome = true := by
  unfold InitializeFirebase
  by_cases h : s.app.isSome = true <;> simp [h]

/-- When the application handle already exists, `InitializeFirebase`
returns immediately without touching the session. -/
theorem initializeFirebase_of_isSome (s : AdSessionState)
    (h : s.app.isSome = true) : InitializeFirebase s = s := by
  unfold InitializeFirebase
  simp [h]

/-- A run of `nativeInit` calls from a state whose application handle
already exists leaves the whole ad-session state unchanged. -/
theorem nativeInitCalls_session_frozen (calls : List (Nat × Nat))
    (s : EarlyInitState) (h : s.session.app.isSome = true) :
    (nativeInitCalls calls s).session = s.session := by
  induction calls generalizing s with
  | nil => rfl
  | cons ea rest ih =>
    obtain ⟨e, a⟩ := ea
    have hsess : (nativeInit e a s).session = s.session :=
      initializeFirebase_of_isSome s.session h
    rw [nativeInitCalls, ih (nativeInit e a s) (by rw [hsess]; exact h), hsess]

/-- Once `g_initialized` is set, further `nativeInit` calls keep it set. -/
theorem nativeInitCalls_initialized_mono (calls : List (Nat × Nat))
    (s : EarlyInitState) (h : s.bridge.initialized = true) :
    (nativeInitCalls calls s).bridge.initialized = true := by
  induction calls generalizing s with
  | nil => exact h
  | cons ea rest ih =>
    obtain ⟨e, a⟩ := ea
    exact ih (nativeInit e a s) rfl

/-- Every `nativeInit` call signals the init condition exactly once. -/
theorem nativeInitCalls_signals (calls : List (Nat × Nat))
    (s : EarlyInitState) :
    (nativeInitCalls calls s).initSignals = s.initSignals + calls.length := by
  induction calls generalizing s with
  | nil => rfl
  | cons ea rest ih =>
    obtain ⟨e, a⟩ := ea
    rw [nativeInitCalls, ih (nativeInit e a s)]
    simp [nativeInit]
    omega

/-- Across any run of `nativeInit` calls, the body of `InitializeFirebase`
past its guard executes at most once more. -/
theorem nativeInitCalls_runs_le (calls : List (Nat × Nat))
    (s : EarlyInitState) :
    (nativeInitCalls calls s).session.firebaseInitRuns ≤
      s.session.firebaseInitRuns + 1 := by
  induction calls generalizing s with
  | nil => exact Nat.le_succ _
  | cons ea rest ih =>
    obtain ⟨e, a⟩ := ea
    by_cases h : s.session.app.isSome = true
    · have hsess : (nativeInit e a s).session = s.session :=
        initializeFirebase_of_isSome s.session h
      rw [nativeInitCalls]
      calc (nativeInitCalls rest (nativeInit e a s)).session.firebaseInitRuns
          ≤ (nativeInit e a s).session.firebaseInitRuns + 1 :=
            ih (nativeInit e a s)
        _ = s.session.firebaseInitRuns + 1 := by rw [hsess]
    · have happ : (nativeInit e a s).session.app.isSome = true :=
        initializeFirebase_app_isSome s.session
      have hfrozen :=
        nativeInitCalls_session_frozen rest (nativeInit e a s) happ
      rw [nativeInitCalls, hfrozen]
      have hruns : (nativeInit e a s).session.firebaseInitRuns =
          s.session.firebaseInitRuns + 1 := by
        show (InitializeFirebase s.session).firebaseInitRuns =
          s.session.firebaseInitRuns + 1
        unfold InitializeFirebase
        simp [h]
      rw [hruns]

/-- Claim C4: `nativeInit` (EarlyInit) is idempotent and guarded.  After any
non-empty run of invocations the `g_initialized` flag is set; the init
condition is signalled once per invocation, so no waiter misses a wakeup;
and the body of `InitializeFirebase` past its `if (g_app) return;` guard
executes at most once more than it already had, because a second call
returns immediately when the application handle already exists. -/
theorem earlyInit_idempotent (calls : List (Nat × Nat)) (s : EarlyInitState)
    (h : ¬ calls = []) :
    (nativeInitCalls calls s).bridge.initialized = true ∧
    (nativeInitCalls calls s).initSignals = s.initSignals + calls.length ∧
    (nativeInitCalls calls s).session.firebaseInitRuns ≤
      s.session.firebaseInitRuns + 1 ∧
    (∀ t : AdSessionState, t.app.isSome = true → InitializeFirebase t = t) := by
  refine ⟨?_, nativeInitCalls_signals calls s, nativeInitCalls_runs_le calls s,
    initializeFirebase_of_isSome⟩
  cases calls with
  | nil => exact absurd rfl h
  | cons ea rest =>
    obtain ⟨e, a⟩ := ea
    exact nativeInitCalls_initialized_mono rest (nativeInit e a s) rfl

/-- Concrete instantiation of `earlyInit_idempotent`: two `nativeInit`
invocations from the process-start state. -/
theorem earlyInit_idempotent_witness :
    ¬ ([((5 : Nat), (9 : Nat)), (5, 9)] = ([] : List (Nat × Nat))) ∧
    ((nativeInitCalls [(5, 9), (5, 9)] early0).bridge.initialized = true ∧
      (nativeInitCalls [(5, 9), (5, 9)] early0).initSignals =
        early0.initSignals + ([((5 : Nat), (9 : Nat)), (5, 9)]).length ∧
      (nativeInitCalls [(5, 9), (5, 9)] early0).session.firebaseInitRuns ≤
        early0.session.firebaseInitRuns + 1 ∧
      (∀ t : AdSessionState, t.app.isSome = true →
        InitializeFirebase t = t)) :=
  ⟨by decide, earlyInit_idempotent [(5, 9), (5, 9)] early0 (by decide)⟩

/-- The wait loop of `WaitForFutureCompletion` terminates once the future
stops reporting pending: if the status at query `p + k` is not pending,
`k + 1` iterations of fuel suffice. -/
theorem waitForFutureLoop_terminates (tid : Nat) (fut : FutureBase)
    (k : Nat) :
    ∀ (p : Nat) (s : BridgeState) (q : List PollSource),
      ¬ fut.statusAt (p + k) = kFutureStatusPending →
      (waitForFutureLoop tid fut (k + 1) p s q).isSome = true := by
  induction k with
  | zero =>
    intro p s q h
    unfold waitForFutureLoop
    by_cases hret : (ProcessEvents tid 1000 s q).ret = true
    · simp [hret]
    · simp only [Nat.add_zero] at h
      simp [hret, h]
  | succ k ih =>
    intro p s q h
    unfold waitForFutureLoop
    by_cases hret : (ProcessEvents tid 1000 s q).ret = true
    · simp [hret]
    · by_cases hst : fut.statusAt p = kFutureStatusPending
      · have h2 : ¬ fut.statusAt ((p + 1) + k) = kFutureStatusPending := by
          have : (p + 1) + k = p + (k + 1) := by omega
          rw [this]
          exact h
        have := ih (p + 1) (ProcessEvents tid 1000 s q).state
          (ProcessEvents tid 1000 s q).pending h2
        simp [hret, hst, this]
      · simp [hret, hst]

/-- Claim C7: for every future whose status stops being pending at some
query, `WaitForFutureCompletion` leaves its `ProcessEvents` loop, and
afterwards it returns normally (a `some` result, no exception and no
abort), having logged the error code and message exactly when the future's
error code is not the success code — so execution of the caller
continues. -/
theorem waitForFutureCompletion_ok (tid : Nat) (fut : FutureBase)
    (s : BridgeState) (q : List PollSource) (k : Nat)
    (h : ¬ fut.statusAt k = kFutureStatusPending) :
    ∃ s2 q2 logs,
      WaitForFutureCompletion tid fut (k + 1) s q = some (s2, q2, logs) ∧
      (¬ fut.error = kAdMobErrorNone → logs = [futureErrorLog fut]) ∧
      (fut.error = kAdMobErrorNone → logs = []) := by
  have hsome := waitForFutureLoop_terminates tid fut k 0 s q
    (by rw [Nat.zero_add]; exact h)
  obtain ⟨⟨s2, q2⟩, hloop⟩ :=
    Option.isSome_iff_exists.mp hsome
  refine ⟨s2, q2, if ¬ fut.error = kAdMobErrorNone then [futureErrorLog fut]
    else [], ?_, ?_, ?_⟩
  · unfold WaitForFutureCompletion
    rw [hloop]
  · intro he
    simp [he]
  · intro he
    simp [he]

/-- Concrete instantiation of `waitForFutureCompletion_ok`: a future that
has already resolved (status query 0 reports complete) with a non-success
error code. -/
theorem waitForFutureCompletion_ok_witness :
    ¬ (FutureBase.statusAt ⟨fun _ => 0, 2, "Ad load failed"⟩ 0
        = kFutureStatusPending) ∧
    ∃ s2 q2 logs,
      WaitForFutureCompletion 1 ⟨fun _ => 0, 2, "Ad load failed"⟩ (0 + 1)
          bridge0 [] = some (s2, q2, logs) ∧
      (¬ (FutureBase.error ⟨fun _ => 0, 2, "Ad load failed"⟩)
          = kAdMobErrorNone →
        logs = [futureErrorLog ⟨fun _ => 0, 2, "Ad load failed"⟩]) ∧
      ((FutureBase.error ⟨fun _ => 0, 2, "Ad load failed"⟩)
          = kAdMobErrorNone → logs = []) :=
  ⟨by decide,
    waitForFutureCompletion_ok 1 ⟨fun _ => 0, 2, "Ad load failed"⟩
      bridge0 [] 0 (by decide)⟩

/-- Claim C9: the logging sink tolerates being called before the on-screen
log view is initialized — `AppendText` with a null `logging_utils_class_`
returns without touching the view, and `LogMessage` with a null
`g_logging_utils_data` leaves the view helper absent and does not abort —
and after the call into the managed runtime, `CheckJNIException` surfaces
(logs) any pending runtime exception, clears it, and then aborts via
`assert(false)`. -/
theorem logging_drops_and_surfaces_exceptions (tid mt : Nat)
    (env : JniEnvState) (d : LoggingUtilsData) (msg e : String)
    (hclass : d.loggingUtilsClass = none)
    (hexn : env.pendingException = some e) :
    d.appendText msg = d ∧
    (LogMessage tid mt env none msg).loggingUtils = none ∧
    (LogMessage tid mt env none msg).abortedByAssert = false ∧
    (LogMessage tid mt env none msg).env = env ∧
    (CheckJNIException env).env.pendingException = none ∧
    e ∈ (CheckJNIException env).consoleLog ∧
    (CheckJNIException env).abortedByAssert = true ∧
    (tid = mt →
      (LogMessage tid mt env (some d) msg).env = (CheckJNIException env).env ∧
      (LogMessage tid mt env (some d) msg).abortedByAssert = true) := by
  refine ⟨?_, ?_, ?_, ?_, ?_, ?_, ?_, ?_⟩
  · simp [LoggingUtilsData.appendText, hclass]
  · unfold LogMessage
    by_cases h : tid = mt <;> simp [h]
  · unfold LogMessage
    by_cases h : tid = mt <;> simp [h]
  · unfold LogMessage
    by_cases h : tid = mt <;> simp [h]
  · unfold CheckJNIException
    rw [hexn]
  · unfold CheckJNIException
    rw [hexn]
    simp
  · unfold CheckJNIException
    rw [hexn]
  · intro h
    constructor
    · unfold LogMessage
      simp [h]
    · unfold LogMessage
      simp only [h, if_true, ite_true]
      show (CheckJNIException env).abortedByAssert = true
      unfold CheckJNIException
      rw [hexn]

/-- Concrete instantiation of `logging_drops_and_surfaces_exceptions`: an
uninitialized view helper and a pending `NullPointerException`. -/
theorem logging_drops_and_surfaces_exceptions_witness :
    (({ loggingUtilsClass := none, addLogTextId := 0, initLogWindowId := 0,
        viewLog := [] } : LoggingUtilsData).loggingUtilsClass = none ∧
      ({ pendingException := some "java.lang.NullPointerException" }
          : JniEnvState).pendingException =
        some "java.lang.NullPointerException") ∧
    (LoggingUtilsData.appendText
        { loggingUtilsClass := none, addLogTextId := 0, initLogWindowId := 0,
          viewLog := [] } "hello" =
      { loggingUtilsClass := none, addLogTextId := 0, initLogWindowId := 0,
        viewLog := [] } ∧
      (LogMessage 1 1 { pendingException := some "java.lang.NullPointerException" }
          none "hello").loggingUtils = none ∧
      (LogMessage 1 1 { pendingException := some "java.lang.NullPointerException" }
          none "hello").abortedByAssert = false ∧
      (LogMessage 1 1 { pendingException := some "java.lang.NullPointerException" }
          none "hello").env =
        { pendingException := some "java.lang.NullPointerException" } ∧
      (CheckJNIException
          { pendingException := some "java.lang.NullPointerException"
            }).env.pendingException = none ∧
      "java.lang.NullPointerException" ∈
        (CheckJNIException
          { pendingException := some "java.lang.NullPointerException"
            }).consoleLog ∧
      (CheckJNIException
          { pendingException := some "java.lang.NullPointerException"
            }).abortedByAssert = true ∧
      ((1 : Nat) = 1 →
        (LogMessage 1 1
            { pendingException := some "java.lang.NullPointerException" }
            (some { loggingUtilsClass := none, addLogTextId := 0,
                    initLogWindowId := 0, viewLog := [] }) "hello").env =
          (CheckJNIException
            { pendingException := some "java.lang.NullPointerException" }).env ∧
        (LogMessage 1 1
            { pendingException := some "java.lang.NullPointerException" }
            (some { loggingUtilsClass := none, addLogTextId := 0,
                    initLogWindowId := 0, viewLog := [] })
            "hello").abortedByAssert = true)) :=
  ⟨⟨rfl, rfl⟩,
    logging_drops_and_surfaces_exceptions 1 1
      { pendingException := some "java.lang.NullPointerException" }
      { loggingUtilsClass := none, addLogTextId := 0, initLogWindowId := 0,
        viewLog := [] } "hello" "java.lang.NullPointerException" rfl rfl⟩

/-- Setting a thread's program point reads back as set for that thread. -/
theorem setPC_self (s : RestartSys) (t : Bool) (p : WorkerPC) :
    s.setPC t p t = p := by
  simp [RestartSys.setPC]

/-- Setting the new invocation's program point leaves the previous
instance's untouched. -/
theorem setPC_true_false (s : RestartSys) (p : WorkerPC) :
    s.setPC true p false = s.pc false := rfl

/-- Setting the previous instance's program point leaves the new
invocation's untouched. -/
theorem setPC_false_true (s : RestartSys) (p : WorkerPC) :
    s.setPC false p true = s.pc true := rfl

/-- `RestartInv` is preserved by every step of either thread. -/
theorem restartInv_step (s s2 : RestartSys) (h : RestartInv s)
    (hstep : SysStep s s2) : RestartInv s2 := by
  obtain ⟨hdom, hrun⟩ := h
  obtain ⟨t, hw⟩ := hstep
  cases t with
  | false =>
    cases hw with
    | entryStarted hpc hst =>
        rcases hdom with h1 | h1 | h1 <;> rw [hpc] at h1 <;>
          exact WorkerPC.noConfusion h1
    | entryFresh hpc hst =>
        rcases hdom with h1 | h1 | h1 <;> rw [hpc] at h1 <;>
          exact WorkerPC.noConfusion h1
    | waitLockAcq hpc hh =>
        rcases hdom with h1 | h1 | h1 <;> rw [hpc] at h1 <;>
          exact WorkerPC.noConfusion h1
    | waitUnlockRel hpc =>
        rcases hdom with h1 | h1 | h1 <;> rw [hpc] at h1 <;>
          exact WorkerPC.noConfusion h1
    | acquireLock hpc hh =>
        rcases hdom with h1 | h1 | h1 <;> rw [hpc] at h1 <;>
          exact WorkerPC.noConfusion h1
    | setStarted hpc =>
        rcases hdom with h1 | h1 | h1 <;> rw [hpc] at h1 <;>
          exact WorkerPC.noConfusion h1
    | finishBody hpc =>
        refine ⟨Or.inr (Or.inl ?_), ?_⟩
        · simp [RestartSys.setPC]
        · intro hr
          simp [RestartSys.setPC] at hr
    | releaseExit hpc =>
        refine ⟨Or.inr (Or.inr ?_), ?_⟩
        · simp [RestartSys.setPC]
        · intro hr
          simp [RestartSys.setPC] at hr
  | true =>
    cases hw with
    | entryStarted hpc hst =>
        refine ⟨by simpa [RestartSys.setPC] using hdom, ?_⟩
        intro hr
        simp only [RestartSys.setPC] at hr
        simp at hr
        obtain ⟨hh, hs, _, _⟩ := hrun hr
        simp [RestartSys.setPC, hh, hs]
    | entryFresh hpc hst =>
        refine ⟨by simpa [RestartSys.setPC] using hdom, ?_⟩
        intro hr
        simp only [RestartSys.setPC] at hr
        simp at hr
        obtain ⟨_, hs, _, _⟩ := hrun hr
        rw [hst] at hs
        exact Bool.noConfusion hs
    | waitLockAcq hpc hh =>
        refine ⟨by simpa [RestartSys.setPC] using hdom, ?_⟩
        intro hr
        simp only [RestartSys.setPC] at hr
        simp at hr
        obtain ⟨hh2, _, _, _⟩ := hrun hr
        rw [hh] at hh2
        exact Option.noConfusion hh2
    | waitUnlockRel hpc =>
        refine ⟨by simpa [RestartSys.setPC] using hdom, ?_⟩
        intro hr
        simp only [RestartSys.setPC] at hr
        simp at hr
        obtain ⟨_, _, hd, _⟩ := hrun hr
        rcases hd with h1 | h1 <;> rw [hpc] at h1 <;>
          exact WorkerPC.noConfusion h1
    | acquireLock hpc hh =>
        refine ⟨by simpa [RestartSys.setPC] using hdom, ?_⟩
        intro hr
        simp only [RestartSys.setPC] at hr
        simp at hr
        obtain ⟨hh2, _, _, _⟩ := hrun hr
        rw [hh] at hh2
        exact Option.noConfusion hh2
    | setStarted hpc =>
        refine ⟨by simpa [RestartSys.setPC] using hdom, ?_⟩
        intro hr
        simp only [RestartSys.setPC] at hr
        simp at hr
        obtain ⟨_, _, hd, _⟩ := hrun hr
        rcases hd with h1 | h1 <;> rw [hpc] at h1 <;>
          exact WorkerPC.noConfusion h1
    | finishBody hpc =>
        refine ⟨by simpa [RestartSys.setPC] using hdom, ?_⟩
        intro hr
        simp only [RestartSys.setPC] at hr
        simp at hr
        obtain ⟨_, _, hd, _⟩ := hrun hr
        rcases hd with h1 | h1 <;> rw [hpc] at h1 <;>
          exact WorkerPC.noConfusion h1
    | releaseExit hpc =>
        refine ⟨by simpa [RestartSys.setPC] using hdom, ?_⟩
        intro hr
        simp only [RestartSys.setPC] at hr
        simp at hr
        obtain ⟨_, _, hd, _⟩ := hrun hr
        rcases hd with h1 | h1 <;> rw [hpc] at h1 <;>
          exact WorkerPC.noConfusion h1

/-- Claim C1: restart mutual exclusion.  From any configuration with the
previous worker instance inside the session body (the region where
`g_started` is set, the code's own notion of a still-running instance), the
mutex held by it, and a new `android_main` invocation at its entry test, in
every reachable state: while the previous instance is still in the session
body the mutex is still held by it, the new invocation is at most at the
lock of line 296 (never at any point past that lock acquisition, so at most
one worker instance runs at a time), the restart flag is set once the new
invocation has taken the restart branch, and the step the new invocation
makes from the entry test sets the restart-requested flag and moves it to
that blocking lock. -/
theorem restart_blocks_new_instance (s0 s : RestartSys)
    (h0old : s0.pc false = .running) (h0new : s0.pc true = .entry)
    (h0hold : s0.holder = some false) (h0started : s0.started = true)
    (hreach : Relation.ReflTransGen SysStep s0 s) :
    (s.pc false = .running →
      s.holder = some false ∧
      (s.pc true = .entry ∨ s.pc true = .waitLock) ∧
      ¬ s.pc true = .running ∧
      (s.pc true = .waitLock → s.restarted = true)) ∧
    (∀ s2, s.pc false = .running → s.pc true = .entry →
      WorkerStep true s s2 →
      s2.pc true = .waitLock ∧ s2.restarted = true ∧
      s2.pc false = .running) := by
  have hinv0 : RestartInv s0 := by
    refine ⟨Or.inl h0old, fun _ => ⟨h0hold, h0started, Or.inl h0new, ?_⟩⟩
    intro hwl
    rw [h0new] at hwl
    exact WorkerPC.noConfusion hwl
  have hinv : RestartInv s := by
    induction hreach with
    | refl => exact hinv0
    | tail hsteps hstep ih => exact restartInv_step _ _ ih hstep
  constructor
  · intro hr
    obtain ⟨hh, _, hd, hwl⟩ := hinv.2 hr
    refine ⟨hh, hd, ?_, hwl⟩
    intro habs
    rcases hd with h1 | h1 <;> rw [habs] at h1 <;>
      exact WorkerPC.noConfusion h1
  · intro s2 hold hnew hw
    cases hw with
    | entryStarted hpc hst =>
        refine ⟨?_, rfl, ?_⟩
        · simp [RestartSys.setPC]
        · simpa [RestartSys.setPC] using hold
    | entryFresh hpc hst =>
        obtain ⟨_, hs, _, _⟩ := hinv.2 hold
        rw [hst] at hs
        exact Bool.noConfusion hs
    | waitLockAcq hpc hh =>
        rw [hnew] at hpc
        exact WorkerPC.noConfusion hpc
    | waitUnlockRel hpc =>
        rw [hnew] at hpc
        exact WorkerPC.noConfusion hpc
    | acquireLock hpc hh =>
        rw [hnew] at hpc
        exact WorkerPC.noConfusion hpc
    | setStarted hpc =>
        rw [hnew] at hpc
        exact WorkerPC.noConfusion hpc
    | finishBody hpc =>
        rw [hnew] at hpc
        exact WorkerPC.noConfusion hpc
    | releaseExit hpc =>
        rw [hnew] at hpc
        exact WorkerPC.noConfusion hpc

/-- Concrete instantiation of `restart_blocks_new_instance`: the initial
restart configuration itself, reachable in zero steps. -/
theorem restart_blocks_new_instance_witness :
    (restart0.pc false = .running ∧ restart0.pc true = .entry ∧
      restart0.holder = some false ∧ restart0.started = true) ∧
    ((restart0.pc false = .running →
        restart0.holder = some false ∧
        (restart0.pc true = .entry ∨ restart0.pc true = .waitLock) ∧
        ¬ restart0.pc true = .running ∧
        (restart0.pc true = .waitLock → restart0.restarted = true)) ∧
      (∀ s2, restart0.pc false = .running → restart0.pc true = .entry →
        WorkerStep true restart0 s2 →
        s2.pc true = .waitLock ∧ s2.restarted = true ∧
        s2.pc false = .running)) :=
  ⟨⟨rfl, rfl, rfl, rfl⟩,
    restart_blocks_new_instance restart0 restart0 rfl rfl rfl rfl
      Relation.ReflTransGen.refl⟩

end QuickstartCpp
